import Mathlib

/-!
Verification of the `predict.py` wrapper of the cog-yue repository.

The wrapper stages text inputs into temporary files, clears an output
directory, runs an external inference subprocess, and collects the renamed
audio outputs.  The development below embeds the wrapper as pure Lean
functions over an explicit environment (which filesystem facts hold, whether
the subprocess exits cleanly, the entropy read for the random seed) and an
explicit filesystem/process state, and proves the observable contract.
-/

namespace CogYue

/-- ASCII whitespace as recognised by Python's `str.strip()` (the Unicode
space classes never occur in the inputs considered here). -/
def pyIsSpace (c : Char) : Bool :=
  c = ' ' || c = '\t' || c = '\n' || c = '\r' || c = '\x0b' || c = '\x0c'

/-- Remove trailing whitespace characters. -/
def dropTrailWS (l : List Char) : List Char :=
  (l.reverse.dropWhile pyIsSpace).reverse

/-- Python `str.strip()`: remove leading and trailing whitespace. -/
def pyStrip (l : List Char) : List Char :=
  dropTrailWS (l.dropWhile pyIsSpace)

/-- `str.strip()` lifted to `String`. -/
def pyStripS (s : String) : String :=
  String.mk (pyStrip s.data)

/-- ASCII lower-casing of one character, as Python `str.lower()` does on the
ASCII range (the structural tags are pure ASCII). -/
def lowerChar (c : Char) : Char :=
  if 'A' ≤ c && c ≤ 'Z' then Char.ofNat (c.toNat + 32) else c

/-- Python `str.lower()` restricted to ASCII. -/
def pyLower (s : String) : String :=
  String.mk (s.data.map lowerChar)

/-- `leadsWith needle hay` holds when `needle` is an initial run of `hay`. -/
def leadsWith : List Char → List Char → Bool
  | [], _ => true
  | _ :: _, [] => false
  | a :: as, b :: bs => a == b && leadsWith as bs

/-- Substring containment on character lists: Python's `needle in hay`. -/
def containsSeq : List Char → List Char → Bool
  | needle, [] => leadsWith needle []
  | needle, c :: t => leadsWith needle (c :: t) || containsSeq needle t

/-- Python `sub in s` on strings. -/
def pyIn (sub s : String) : Bool :=
  containsSeq sub.data s.data

/-- Python `s.endswith(suf)`. -/
def pyEndsWith (s suf : String) : Bool :=
  leadsWith suf.data.reverse s.data.reverse

/-- Left-to-right, non-overlapping replacement of the two-character sequence
CR LF by LF: Python `content.replace("\r\n", "\n")`. -/
def replaceCRLF : List Char → List Char
  | [] => []
  | [c] => [c]
  | a :: b :: t =>
    if a = '\r' ∧ b = '\n' then '\n' :: replaceCRLF t
    else a :: replaceCRLF (b :: t)

/-- Replacement of every remaining CR by LF: Python
`content.replace("\r", "\n")`. -/
def replaceCR (l : List Char) : List Char :=
  l.map (fun c => if c = '\r' then '\n' else c)

/-- The text written by `create_temp_file` (predict.py lines 105-113): the
input is stripped, a blank line is appended, and only then are the CR LF and
CR line endings normalised to LF. -/
def tempFileContent (content : List Char) : List Char :=
  replaceCR (replaceCRLF (pyStrip content ++ ['\n', '\n']))

/-- `os.urandom(4)` interpreted big-endian by `int.from_bytes`: four bytes of
entropy, i.e. a value below `2 ^ 32`. -/
def urandom4 (entropy : Nat) : Nat :=
  entropy % 2 ^ 32

/-- `Predictor.seed_or_random_seed` (predict.py lines 204-210).  Python's
`if not seed or seed <= 0` is true exactly when the seed is unset, zero or
negative. -/
def seed_or_random_seed (seed : Option Int) (entropy : Nat) : Int :=
  match seed with
  | none => Int.ofNat (urandom4 entropy &&& 0x7FFFFFFF)
  | some s =>
    if s ≤ 0 then Int.ofNat (urandom4 entropy &&& 0x7FFFFFFF) else s

/-- The four recognised structural tags of predict.py line 95. -/
def structuralTags : List String :=
  ["[verse]", "[chorus]", "[bridge]", "[outro]"]

/-- `any(tag in lyrics.lower() for tag in [...])` (predict.py lines 93-96). -/
def hasStructuralTag (lyrics : String) : Bool :=
  structuralTags.any (fun tag => pyIn tag (pyLower lyrics))

/-- Quantization choices for stage 1 (predict.py lines 75-79). -/
inductive QS1 | bf16 | int8 | nf4
deriving DecidableEq

/-- Quantization choices for stage 2 (predict.py lines 80-84). -/
inductive QS2 | bf16 | int8
deriving DecidableEq

/-- Stage-1 quantization-to-model mapping (predict.py lines 135-139). -/
def stage1Model : QS1 → String
  | .bf16 => "m-a-p/YuE-s1-7B-anneal-en-cot"
  | .int8 => "Alissonerdx/YuE-s1-7B-anneal-en-cot-int8"
  | .nf4 => "Alissonerdx/YuE-s1-7B-anneal-en-cot-nf4"

/-- Stage-2 quantization-to-model mapping (predict.py lines 140-143). -/
def stage2Model : QS2 → String
  | .bf16 => "m-a-p/YuE-s2-1B-general"
  | .int8 => "Alissonerdx/YuE-s2-1B-general-int8"

/-- Flag names used on the command line, per quantization choice. -/
def qs1Name : QS1 → String
  | .bf16 => "bf16"
  | .int8 => "int8"
  | .nf4 => "nf4"

def qs2Name : QS2 → String
  | .bf16 => "bf16"
  | .int8 => "int8"

/-- The caller-facing request of `Predictor.predict` (predict.py lines 52-85). -/
structure Inputs where
  genre_description : String
  lyrics : String
  num_segments : Int
  max_new_tokens : Int
  seed : Option Int
  quantization_stage1 : QS1
  quantization_stage2 : QS2
deriving DecidableEq

/-- Everything outside the wrapper's control that a run of `predict` observes:
the entropy `os.urandom` yields, the initial contents of the output directory,
whether a fault (an `OSError`) strikes while the output directory is being
emptied, the subprocess exit status, and what the subprocess left in the
vocoder mix directory. -/
structure Env where
  entropy : Nat
  outputDirExists0 : Bool
  initialOutputEntries : List String
  clearFails : Bool
  subprocOk : Bool
  mixDirExists : Bool
  mixListing : List String
deriving DecidableEq

/-- The errors `predict` can raise: the three `ValueError`s of input
validation, an `OSError` escaping the output-directory clearing loop, and
`CalledProcessError` from `subprocess.run(..., check=True)`. -/
inductive PredError
  | invalidInput (msg : String)
  | outputDirClearFault
  | subprocFail
deriving DecidableEq

/-- Observable filesystem/process state tracked across a run of `predict`:
which temporary files were ever created (with the content written to them),
which are still on disk, the live output-directory contents, how many times
the subprocess was launched, snapshots of the output directory and command at
launch time, and the working directory relative to where the request began. -/
structure PState where
  tempCreated : List (String × List Char)
  tempOnDisk : List String
  outputDirExists : Bool
  outputEntries : List String
  launchCount : Nat
  entriesAtLaunch : Option (List String)
  dirExistsAtLaunch : Option Bool
  commandAtLaunch : Option (List String)
  cwdSuffix : List String
deriving DecidableEq

deriving instance DecidableEq for Except

/-- Fixed paths and names of the wrapper. -/
def outputDir : String := "/src/output"

/-- `os.path.join(output_dir, "vocoder", "mix")` (predict.py line 184). -/
def mixDir : String := "/src/output/vocoder/mix"

/-- The temporary file `tempfile.NamedTemporaryFile` allocates for the genre
text (an arbitrary fresh name with the `genre_` name marker). -/
def genreFileName : String := "/tmp/genre_h1se00qk.txt"

/-- The temporary file allocated for the lyrics text. -/
def lyricsFileName : String := "/tmp/lyrics_h1se00qk.txt"

/-- The `for item in os.listdir(output_dir)` loop of predict.py lines
123-128: each listed entry is deleted from the directory (`shutil.rmtree`
for a subdirectory, `os.remove` for a file — both remove the entry). -/
def clearLoop : List String → List String → List String
  | dir, [] => dir
  | dir, item :: rest => clearLoop (dir.erase item) rest

/-- The argument vector of predict.py lines 149-176. -/
def buildCommand (inp : Inputs) (seedVal : Int) : List String :=
  ["python", "infer.py",
   "--stage1_model", stage1Model inp.quantization_stage1,
   "--stage2_model", stage2Model inp.quantization_stage2,
   "--genre_txt", genreFileName,
   "--lyrics_txt", lyricsFileName,
   "--run_n_segments", toString inp.num_segments,
   "--stage2_batch_size", "4",
   "--output_dir", outputDir,
   "--cuda_idx", "0",
   "--max_new_tokens", toString inp.max_new_tokens,
   "--seed", toString seedVal,
   "--quantization_stage1", qs1Name inp.quantization_stage1,
   "--quantization_stage2", qs2Name inp.quantization_stage2]

/-- The new name given to the `idx`-th of `n` matching files (predict.py
lines 190-192): `output.mp3` when it is alone, `output_<idx+1>.mp3`
otherwise. -/
def outputName (n idx : Nat) : String :=
  if n = 1 then "output.mp3" else "output_" ++ toString (idx + 1) ++ ".mp3"

/-- Output harvesting of predict.py lines 183-197: list the mix directory,
keep the `.mp3` entries, and rename the `idx`-th one to its new name; the
returned list holds the new paths in enumeration order. -/
def collectOutputs (env : Env) : List String :=
  if env.mixDirExists then
    let mp3s := env.mixListing.filter (fun f => pyEndsWith f ".mp3")
    mp3s.enum.map (fun p => mixDir ++ "/" ++ outputName mp3s.length p.1)
  else []

/-- The `try` block of predict.py lines 130-197: change into the inference
directory, launch the subprocess, and on a clean exit change back and collect
the outputs.  On a non-zero exit the `CalledProcessError` propagates and the
`os.chdir("..")` of line 181 never runs. -/
def tryBody (inp : Inputs) (env : Env) (seedVal : Int) (st : PState) :
    Except PredError (List String) × PState :=
  let st1 := { st with cwdSuffix := st.cwdSuffix ++ ["inference"] }
  let st2 := { st1 with
    launchCount := st1.launchCount + 1
    entriesAtLaunch := some st1.outputEntries
    dirExistsAtLaunch := some st1.outputDirExists
    commandAtLaunch := some (buildCommand inp seedVal) }
  if env.subprocOk then
    let st3 := { st2 with cwdSuffix := st2.cwdSuffix.dropLast }
    (.ok (collectOutputs env), st3)
  else
    (.error .subprocFail, st2)

/-- The `finally` block of predict.py lines 199-202: both temporary files are
removed from disk. -/
def finallyCleanup (st : PState) : PState :=
  { st with tempOnDisk := (st.tempOnDisk.erase genreFileName).erase lyricsFileName }

/-- `Predictor.predict` (predict.py lines 52-202).  The seed is resolved
first; then come the three validations; then the two temporary files are
written; then the output directory is created (if absent) and emptied — a
fault here propagates while both temporary files are on disk, since the
`try`/`finally` has not been entered yet; finally the `try` block runs with
its `finally` cleanup applied on every path out of it. -/
def predict (inp : Inputs) (env : Env) :
    Except PredError (List String) × PState :=
  let st0 : PState := {
    tempCreated := []
    tempOnDisk := []
    outputDirExists := env.outputDirExists0
    outputEntries := if env.outputDirExists0 then env.initialOutputEntries else []
    launchCount := 0
    entriesAtLaunch := none
    dirExistsAtLaunch := none
    commandAtLaunch := none
    cwdSuffix := [] }
  let seedVal := seed_or_random_seed inp.seed env.entropy
  if pyStripS inp.lyrics = "" then
    (.error (.invalidInput "Lyrics cannot be empty"), st0)
  else if hasStructuralTag inp.lyrics = false then
    (.error (.invalidInput
      "Lyrics must contain at least one [verse], [chorus], [bridge], or [outro] tag"), st0)
  else if pyStripS inp.genre_description = "" then
    (.error (.invalidInput "Genre description cannot be empty"), st0)
  else
    let files := [(genreFileName, tempFileContent inp.genre_description.data),
                  (lyricsFileName, tempFileContent inp.lyrics.data)]
    let st1 := { st0 with
      tempCreated := files
      tempOnDisk := files.map Prod.fst
      outputDirExists := true }
    if env.clearFails then
      (.error .outputDirClearFault, st1)
    else
      let st2 := { st1 with outputEntries := clearLoop st1.outputEntries st1.outputEntries }
      let r := tryBody inp env seedVal st2
      (r.1, finallyCleanup r.2)

/-- A request is accepted when it passes the three validations of predict.py
lines 90-102. -/
def validInput (inp : Inputs) : Prop :=
  pyStripS inp.lyrics ≠ "" ∧ hasStructuralTag inp.lyrics = true ∧
    pyStripS inp.genre_description ≠ ""

instance (inp : Inputs) : Decidable (validInput inp) := by
  unfold validInput; infer_instance

/-- Remote store base location (predict.py line 10). -/
def WEIGHTS_BASE_URL : String := "https://weights.replicate.delivery/default/yue/"

/-- What a run of `download_weights` observes: whether `dest_dir/filename`
already exists, and whether the `pget` fetch-and-extract subprocess exits
cleanly. -/
structure DlEnv where
  destFileExists : Bool
  fetchOk : Bool
deriving DecidableEq

/-- Observable effects of `download_weights`. -/
structure DlState where
  dirCreated : Bool
  fetchAttempts : Nat
  fetchedUrl : Option String
deriving DecidableEq

inductive DlError
  | fetchFailed
deriving DecidableEq

/-- `Predictor.download_weights` (predict.py lines 14-33): ensure the
destination directory exists, then fetch and extract the bundle with `pget`
only when `dest_dir/filename` is absent; a non-zero `pget` exit raises
`CalledProcessError` (fatal, no retry). -/
def download_weights (filename : String) (dest_dir : String) (env : DlEnv) :
    Except DlError Unit × DlState :=
  let _ := dest_dir
  let st0 : DlState := { dirCreated := true, fetchAttempts := 0, fetchedUrl := none }
  if env.destFileExists = false then
    let st1 : DlState := { st0 with
      fetchAttempts := 1
      fetchedUrl := some (WEIGHTS_BASE_URL ++ "/" ++ filename ++ ".tar") }
    if env.fetchOk then (.ok (), st1) else (.error .fetchFailed, st1)
  else
    (.ok (), st0)

/-- A representative accepted request (its lyrics hold a `[verse]` and a
`[chorus]` tag, its genre description is non-blank). -/
def sampleInputs : Inputs := {
  genre_description := "inspiring female uplifting pop airy vocal"
  lyrics := "[verse]\nOh yeah, oh yeah\n\n[chorus]\nOh yeah"
  num_segments := 2
  max_new_tokens := 1500
  seed := some 42
  quantization_stage1 := .bf16
  quantization_stage2 := .bf16 }

/-- A request whose lyrics carry none of the structural tags. -/
def taglessInputs : Inputs :=
  { sampleInputs with lyrics := "just some words" }

/-- A benign environment: no fault, clean subprocess exit, one mix file. -/
def baseEnv : Env := {
  entropy := 123456789
  outputDirExists0 := true
  initialOutputEntries := ["stale.mp3", "vocoder"]
  clearFails := false
  subprocOk := true
  mixDirExists := true
  mixListing := ["a.mp3"] }

/-- An environment where an `OSError` strikes while the output directory is
being emptied (after the temporary files were written, before the
`try`/`finally` is entered). -/
def clearFaultEnv : Env := { baseEnv with clearFails := true }

/-- An environment where the inference subprocess exits non-zero. -/
def subprocFailEnv : Env := { baseEnv with subprocOk := false }

/-- An environment where the subprocess leaves three `.mp3` files (and one
non-matching file) in the mix directory. -/
def threeMixEnv : Env :=
  { baseEnv with mixListing := ["a.mp3", "b.mp3", "cue.txt", "c.mp3"] }

/-- An environment where the subprocess succeeds but leaves no `.mp3`. -/
def emptyMixEnv : Env := { baseEnv with mixListing := ["readme.txt"] }

/-- An environment where the subprocess succeeds but the mix directory was
never created. -/
def noMixDirEnv : Env := { baseEnv with mixDirExists := false }

/-! ## Helper lemmas -/

theorem clearLoop_self (l : List String) : clearLoop l l = [] := by
  induction l with
  | nil => rfl
  | cons a t ih =>
    rw [clearLoop, List.erase_cons_head]
    exact ih

theorem head?_dropWhile_false (p : Char → Bool) :
    ∀ (l : List Char) (c : Char), (l.dropWhile p).head? = some c → p c = false := by
  intro l
  induction l with
  | nil => intro c h; simp [List.dropWhile] at h
  | cons a t ih =>
    intro c h
    rw [List.dropWhile_cons] at h
    by_cases hpa : p a = true
    · rw [if_pos hpa] at h
      exact ih c h
    · rw [if_neg hpa] at h
      simp only [List.head?_cons, Option.some.injEq] at h
      subst h
      exact Bool.eq_false_iff.mpr hpa

theorem dropTrailWS_getLast? (l : List Char) (c : Char)
    (h : (dropTrailWS l).getLast? = some c) : pyIsSpace c = false := by
  unfold dropTrailWS at h
  rw [List.getLast?_reverse] at h
  exact head?_dropWhile_false pyIsSpace _ c h

theorem pyStrip_getLast?_not_cr (l : List Char) :
    (pyStrip l).getLast? ≠ some '\r' := by
  intro h
  unfold pyStrip at h
  exact absurd (dropTrailWS_getLast? _ _ h) (by decide)

theorem replaceCRLF_append :
    ∀ l : List Char, l.getLast? ≠ some '\r' →
      replaceCRLF (l ++ ['\n', '\n']) = replaceCRLF l ++ ['\n', '\n']
  | [], _ => by decide
  | [c], h => by
    have hc : ¬(c = '\r') := by simpa using h
    simp [replaceCRLF, hc]
  | a :: b :: t, h => by
    have h' : (b :: t).getLast? ≠ some '\r' := by
      rwa [List.getLast?_cons_cons] at h
    by_cases hab : a = '\r' ∧ b = '\n'
    · have ht : t.getLast? ≠ some '\r' := by
        cases t with
        | nil => simp
        | cons x xs => rwa [List.getLast?_cons_cons] at h'
      simp [replaceCRLF, hab, replaceCRLF_append t ht]
    · have ih := replaceCRLF_append (b :: t) h'
      rw [List.cons_append] at ih
      simp [replaceCRLF, hab, ih]

theorem replaceCR_append (l m : List Char) :
    replaceCR (l ++ m) = replaceCR l ++ replaceCR m :=
  List.map_append _ l m

/-- On a valid request with no clearing fault and a clean subprocess exit,
`predict` returns exactly the collected outputs. -/
theorem predict_ok_of_valid (inp : Inputs) (env : Env)
    (h1 : pyStripS inp.lyrics ≠ "") (h2 : hasStructuralTag inp.lyrics = true)
    (h3 : pyStripS inp.genre_description ≠ "") (hc : env.clearFails = false)
    (hs : env.subprocOk = true) :
    (predict inp env).1 = .ok (collectOutputs env) := by
  unfold predict tryBody
  simp [h1, h2, h3, hc, hs]

/-- With exactly one matching file in the mix directory, the collected
output is the canonical single-output path. -/
theorem collectOutputs_single (env : Env) (hm : env.mixDirExists = true)
    (h : (env.mixListing.filter (fun f => pyEndsWith f ".mp3")).length = 1) :
    collectOutputs env = [mixDir ++ "/" ++ "output.mp3"] := by
  obtain ⟨x, hx⟩ := List.length_eq_one.mp h
  simp [collectOutputs, hm, hx, List.enum, List.enumFrom, outputName]

/-- With more than one matching file, the collected outputs are the indexed
paths `output_1.mp3 … output_n.mp3` in enumeration order. -/
theorem collectOutputs_multi (env : Env) (hm : env.mixDirExists = true)
    (h : 1 < (env.mixListing.filter (fun f => pyEndsWith f ".mp3")).length) :
    collectOutputs env =
      (List.range (env.mixListing.filter (fun f => pyEndsWith f ".mp3")).length).map
        (fun i => mixDir ++ "/" ++ ("output_" ++ toString (i + 1) ++ ".mp3")) := by
  unfold collectOutputs
  simp only [hm, if_true]
  set mp3s := env.mixListing.filter (fun f => pyEndsWith f ".mp3") with hmp
  have hne : mp3s.length ≠ 1 := by omega
  have hfun : (fun i => mixDir ++ "/" ++ outputName mp3s.length i) =
      (fun i => mixDir ++ "/" ++ ("output_" ++ toString (i + 1) ++ ".mp3")) := by
    funext i
    simp [outputName, hne]
  calc mp3s.enum.map (fun p => mixDir ++ "/" ++ outputName mp3s.length p.1)
      = (mp3s.enum.map Prod.fst).map
          (fun i => mixDir ++ "/" ++ outputName mp3s.length i) := by
        rw [List.map_map]; rfl
    _ = (List.range mp3s.length).map
          (fun i => mixDir ++ "/" ++ outputName mp3s.length i) := by
        rw [List.enum_map_fst]
    _ = (List.range mp3s.length).map
          (fun i => mixDir ++ "/" ++ ("output_" ++ toString (i + 1) ++ ".mp3")) := by
        rw [hfun]

/-! ## Claim theorems -/

/-- C8: for every accepted request, the content written to each staged
temporary file equals the input text with leading and trailing whitespace
stripped, all CR and CR-LF line endings normalised to LF, and a blank
trailing line appended, so the file ends with two newline characters.
(`create_temp_file` applies the same `tempFileContent` transformation to the
genre text and to the lyrics text.) -/
theorem temp_file_content_spec (s : List Char) :
    tempFileContent s = replaceCR (replaceCRLF (pyStrip s)) ++ ['\n', '\n'] ∧
    ∃ m, tempFileContent s = m ++ ['\n', '\n'] := by
  have h1 : tempFileContent s = replaceCR (replaceCRLF (pyStrip s)) ++ ['\n', '\n'] := by
    unfold tempFileContent
    rw [replaceCRLF_append (pyStrip s) (pyStrip_getLast?_not_cr s), replaceCR_append]
    congr 1
  exact ⟨h1, _, h1⟩

/-- C3: a seed that is unset, zero or negative is replaced by the masked
32-bit entropy value, which lies in `[0, 2^31 - 1]`; a strictly positive seed
is returned unchanged. -/
theorem seed_or_random_seed_spec (seed : Option Int) (entropy : Nat) :
    ((seed = none ∨ ∃ s, seed = some s ∧ s ≤ 0) →
      seed_or_random_seed seed entropy =
        ((urandom4 entropy &&& 0x7FFFFFFF : ℕ) : ℤ) ∧
      0 ≤ seed_or_random_seed seed entropy ∧
      seed_or_random_seed seed entropy ≤ 2 ^ 31 - 1) ∧
    (∀ s : Int, seed = some s → 0 < s → seed_or_random_seed seed entropy = s) := by
  have hle : urandom4 entropy &&& 0x7FFFFFFF ≤ 2147483647 := Nat.and_le_right
  have hmask : ((urandom4 entropy &&& 0x7FFFFFFF : ℕ) : ℤ) ≤ 2 ^ 31 - 1 := by
    omega
  constructor
  · rintro (rfl | ⟨s, rfl, hs⟩)
    · exact ⟨rfl, Int.natCast_nonneg _, hmask⟩
    · rw [seed_or_random_seed, if_pos hs]
      exact ⟨rfl, Int.natCast_nonneg _, hmask⟩
  · rintro s rfl hpos
    rw [seed_or_random_seed, if_neg (not_le.mpr hpos)]

/-- Witness for C3 at the concrete seeds `some (-3)` (random path) and
`some 7` (pass-through path). -/
theorem seed_or_random_seed_spec_witness :
    seed_or_random_seed (some (-3)) 999 =
      ((urandom4 999 &&& 0x7FFFFFFF : ℕ) : ℤ) ∧
    seed_or_random_seed (some 7) 999 = 7 :=
  ⟨((seed_or_random_seed_spec (some (-3)) 999).1
      (Or.inr ⟨-3, rfl, by decide⟩)).1,
   (seed_or_random_seed_spec (some 7) 999).2 7 rfl (by decide)⟩

/-- C1: a request whose lyrics are blank, or carry no structural tag, or
whose genre description is blank, is rejected with an invalid-input error
before any temporary file is created and before the subprocess is
launched. -/
theorem predict_rejects_invalid (inp : Inputs) (env : Env)
    (h : pyStripS inp.lyrics = "" ∨ hasStructuralTag inp.lyrics = false ∨
      pyStripS inp.genre_description = "") :
    (∃ msg, (predict inp env).1 = .error (.invalidInput msg)) ∧
    (predict inp env).2.tempCreated = [] ∧
    (predict inp env).2.launchCount = 0 := by
  unfold predict
  by_cases h1 : pyStripS inp.lyrics = ""
  · simp [h1]
  · by_cases h2 : hasStructuralTag inp.lyrics = false
    · simp [h1, h2]
    · by_cases h3 : pyStripS inp.genre_description = ""
      · simp [h1, h2, h3]
      · tauto

/-- Witness for C1: the tagless request is rejected with no side effects. -/
theorem predict_rejects_invalid_witness :
    (pyStripS taglessInputs.lyrics = "" ∨
      hasStructuralTag taglessInputs.lyrics = false ∨
      pyStripS taglessInputs.genre_description = "") ∧
    ((∃ msg, (predict taglessInputs baseEnv).1 = .error (.invalidInput msg)) ∧
      (predict taglessInputs baseEnv).2.tempCreated = [] ∧
      (predict taglessInputs baseEnv).2.launchCount = 0) :=
  ⟨by decide, predict_rejects_invalid taglessInputs baseEnv (by decide)⟩

/-- C2 (counterexample): with valid inputs and a fault while the output
directory is being emptied — a step that runs after both temporary files are
written but before the `try`/`finally` is entered — `predict` raises and
both temporary files remain on disk, contradicting "both files are removed
on every exit path, including any failure occurring after their
creation". -/
theorem predict_temp_cleanup_counterexample :
    (predict sampleInputs clearFaultEnv).2.tempCreated.map Prod.fst =
      [genreFileName, lyricsFileName] ∧
    (predict sampleInputs clearFaultEnv).2.tempOnDisk =
      [genreFileName, lyricsFileName] ∧
    (predict sampleInputs clearFaultEnv).1 = .error .outputDirClearFault := by
  decide

/-- C2 (amended): when no fault strikes while the output directory is being
emptied, no temporary file remains on disk after `predict` returns or
raises — in particular on success and on subprocess failure the `finally`
block removes both files. -/
theorem predict_removes_temp_files (inp : Inputs) (env : Env)
    (h : env.clearFails = false) :
    (predict inp env).2.tempOnDisk = [] := by
  unfold predict tryBody finallyCleanup
  by_cases h1 : pyStripS inp.lyrics = ""
  · simp [h1]
  · by_cases h2 : hasStructuralTag inp.lyrics = false
    · simp [h1, h2]
    · by_cases h3 : pyStripS inp.genre_description = ""
      · simp [h1, h2, h3]
      · by_cases h4 : env.subprocOk <;>
          simp [h1, h2, h3, h4, h, List.erase_cons_head]

/-- Witness for C2 (amended) in the benign environment. -/
theorem predict_removes_temp_files_witness :
    baseEnv.clearFails = false ∧
    (predict sampleInputs baseEnv).2.tempOnDisk = [] :=
  ⟨rfl, predict_removes_temp_files sampleInputs baseEnv rfl⟩

/-- C4: whenever the subprocess is launched, the output directory exists
(it was created if absent) and holds no entry: every entry listed before the
request was removed by the clearing loop. -/
theorem predict_output_dir_cleared_at_launch (inp : Inputs) (env : Env)
    (h : 0 < (predict inp env).2.launchCount) :
    (predict inp env).2.entriesAtLaunch = some [] ∧
    (predict inp env).2.dirExistsAtLaunch = some true := by
  unfold predict tryBody finallyCleanup at h ⊢
  by_cases h1 : pyStripS inp.lyrics = ""
  · simp [h1] at h
  · by_cases h2 : hasStructuralTag inp.lyrics = false
    · simp [h1, h2] at h
    · by_cases h3 : pyStripS inp.genre_description = ""
      · simp [h1, h2, h3] at h
      · by_cases h4 : env.clearFails
        · simp [h1, h2, h3, h4] at h
        · by_cases h5 : env.subprocOk <;>
            simp [h1, h2, h3, h4, h5, clearLoop_self]

/-- Witness for C4: in the benign environment (which starts with stale
entries in the output directory) the subprocess is launched and sees an
empty, existing output directory. -/
theorem predict_output_dir_cleared_at_launch_witness :
    0 < (predict sampleInputs baseEnv).2.launchCount ∧
    ((predict sampleInputs baseEnv).2.entriesAtLaunch = some [] ∧
      (predict sampleInputs baseEnv).2.dirExistsAtLaunch = some true) :=
  ⟨by decide, predict_output_dir_cleared_at_launch sampleInputs baseEnv (by decide)⟩

/-- C5: after a clean subprocess exit, a lone matching file in the mix
directory yields the canonical single-output path, and `n > 1` matching
files yield the indexed paths `output_1.mp3 … output_n.mp3`, indices
assigned in directory-listing order, returned in that same order. -/
theorem predict_output_naming (inp : Inputs) (env : Env)
    (hv : validInput inp) (hc : env.clearFails = false)
    (hs : env.subprocOk = true) (hm : env.mixDirExists = true) :
    ((env.mixListing.filter (fun f => pyEndsWith f ".mp3")).length = 1 →
      (predict inp env).1 = .ok [mixDir ++ "/" ++ "output.mp3"]) ∧
    (1 < (env.mixListing.filter (fun f => pyEndsWith f ".mp3")).length →
      (predict inp env).1 = .ok
        ((List.range (env.mixListing.filter (fun f => pyEndsWith f ".mp3")).length).map
          (fun i => mixDir ++ "/" ++ ("output_" ++ toString (i + 1) ++ ".mp3")))) := by
  obtain ⟨h1, h2, h3⟩ := hv
  have hok := predict_ok_of_valid inp env h1 h2 h3 hc hs
  exact ⟨fun hlen => by rw [hok, collectOutputs_single env hm hlen],
         fun hlen => by rw [hok, collectOutputs_multi env hm hlen]⟩

/-- Witness for C5: one mix file becomes `output.mp3`; three mix files (and
one non-matching entry) become `output_1.mp3`, `output_2.mp3`,
`output_3.mp3` in listing order. -/
theorem predict_output_naming_witness :
    (validInput sampleInputs ∧
      (predict sampleInputs baseEnv).1 =
        .ok ["/src/output/vocoder/mix/output.mp3"]) ∧
    (predict sampleInputs threeMixEnv).1 =
      .ok ["/src/output/vocoder/mix/output_1.mp3",
           "/src/output/vocoder/mix/output_2.mp3",
           "/src/output/vocoder/mix/output_3.mp3"] := by
  refine ⟨⟨by decide, ?_⟩, ?_⟩
  · have h := (predict_output_naming sampleInputs baseEnv (by decide) rfl rfl rfl).1
      (by decide)
    rw [h]
    decide
  · have h := (predict_output_naming sampleInputs threeMixEnv (by decide) rfl rfl rfl).2
      (by decide)
    rw [h]
    decide

/-- C6: a non-zero subprocess exit surfaces as a failure (no output list is
returned), the subprocess was launched exactly once (no retry), and both
temporary input files were still removed. -/
theorem predict_subproc_failure (inp : Inputs) (env : Env)
    (hv : validInput inp) (hc : env.clearFails = false)
    (hs : env.subprocOk = false) :
    (predict inp env).1 = .error .subprocFail ∧
    (predict inp env).2.tempOnDisk = [] ∧
    (predict inp env).2.launchCount = 1 := by
  obtain ⟨h1, h2, h3⟩ := hv
  unfold predict tryBody finallyCleanup
  simp [h1, h2, h3, hc, hs, List.erase_cons_head]

/-- Witness for C6 in the failing-subprocess environment. -/
theorem predict_subproc_failure_witness :
    (validInput sampleInputs ∧ subprocFailEnv.clearFails = false ∧
      subprocFailEnv.subprocOk = false) ∧
    ((predict sampleInputs subprocFailEnv).1 = .error .subprocFail ∧
      (predict sampleInputs subprocFailEnv).2.tempOnDisk = [] ∧
      (predict sampleInputs subprocFailEnv).2.launchCount = 1) :=
  ⟨⟨by decide, rfl, rfl⟩,
   predict_subproc_failure sampleInputs subprocFailEnv (by decide) rfl rfl⟩

/-- C7: a clean subprocess exit with a missing mix directory, or with no
`.mp3` file in it, yields `ok []` — an empty result indistinguishable from a
success with no artifacts, with no error raised. -/
theorem predict_no_output_silent (inp : Inputs) (env : Env)
    (hv : validInput inp) (hc : env.clearFails = false)
    (hs : env.subprocOk = true)
    (hm : env.mixDirExists = false ∨
      env.mixListing.filter (fun f => pyEndsWith f ".mp3") = []) :
    (predict inp env).1 = .ok [] := by
  obtain ⟨h1, h2, h3⟩ := hv
  rw [predict_ok_of_valid inp env h1 h2 h3 hc hs]
  rcases hm with hm | hm
  · simp [collectOutputs, hm]
  · simp [collectOutputs, hm]

/-- Witness for C7: both the missing-mix-directory case and the
no-matching-file case return the empty list. -/
theorem predict_no_output_silent_witness :
    (predict sampleInputs noMixDirEnv).1 = .ok [] ∧
    (predict sampleInputs emptyMixEnv).1 = .ok [] :=
  ⟨predict_no_output_silent sampleInputs noMixDirEnv (by decide) rfl rfl
      (Or.inl rfl),
   predict_no_output_silent sampleInputs emptyMixEnv (by decide) rfl rfl
      (Or.inr (by decide))⟩

/-- C9: `download_weights` fetches (and extracts) the bundle from the fixed
remote base location exactly when `dest_dir/filename` is absent (one attempt,
never more); when the path exists no fetch happens and setup succeeds; a
failed fetch is fatal with no retry. -/
theorem download_weights_spec (filename dest_dir : String) (env : DlEnv) :
    ((download_weights filename dest_dir env).2.fetchAttempts =
      if env.destFileExists then 0 else 1) ∧
    (env.destFileExists = true →
      (download_weights filename dest_dir env).1 = .ok () ∧
      (download_weights filename dest_dir env).2.fetchedUrl = none) ∧
    (env.destFileExists = false →
      (download_weights filename dest_dir env).2.fetchedUrl =
        some (WEIGHTS_BASE_URL ++ "/" ++ filename ++ ".tar") ∧
      (env.fetchOk = false →
        (download_weights filename dest_dir env).1 = .error .fetchFailed)) := by
  unfold download_weights
  by_cases h : env.destFileExists <;> by_cases hf : env.fetchOk <;> simp [h, hf]

/-- Witness for C9: a present bundle is skipped; an absent bundle whose
fetch fails aborts setup. -/
theorem download_weights_spec_witness :
    (download_weights "xcodec_mini_infer" "/src/inference" ⟨true, true⟩).2.fetchAttempts
      = 0 ∧
    (download_weights "xcodec_mini_infer" "/src/inference" ⟨false, false⟩).1
      = .error .fetchFailed := by
  constructor
  · have h := (download_weights_spec "xcodec_mini_infer" "/src/inference" ⟨true, true⟩).1
    simpa using h
  · exact ((download_weights_spec "xcodec_mini_infer" "/src/inference"
      ⟨false, false⟩).2.2 rfl).2 rfl

/-- C10: when the subprocess exits non-zero, the `os.chdir("..")` that
follows the subprocess call inside the `try` block is skipped and no
`finally` restores it, so the process is left inside the inference
directory. -/
theorem predict_cwd_not_restored_on_failure (inp : Inputs) (env : Env)
    (hv : validInput inp) (hc : env.clearFails = false)
    (hs : env.subprocOk = false) :
    (predict inp env).2.cwdSuffix = ["inference"] := by
  obtain ⟨h1, h2, h3⟩ := hv
  unfold predict tryBody finallyCleanup
  simp [h1, h2, h3, hc, hs]

/-- Witness for C10: after a failed run the working directory suffix is the
inference directory. -/
theorem predict_cwd_not_restored_on_failure_witness :
    (validInput sampleInputs ∧ subprocFailEnv.subprocOk = false) ∧
    (predict sampleInputs subprocFailEnv).2.cwdSuffix = ["inference"] :=
  ⟨⟨by decide, rfl⟩,
   predict_cwd_not_restored_on_failure sampleInputs subprocFailEnv (by decide) rfl rfl⟩

end CogYue
